import Mathlib

/-!
Shallow embedding of `src/Tone/instrument/AMSynth.ts` (an amplitude-modulation
synthesis voice) and proofs of the specified properties.

The file under `src/` contains only the `AMSynth` class itself; the node
primitives it wires together (`Signal`, `Multiply`, `AudioToGain`, `Gain`, the
`Synth` sub-voice and the `Monophonic` base) live elsewhere in the repository.
Definitions for those primitives carry a doc comment starting
`Modelled from the spec:` and follow the specification's description of them;
everything else is translated directly from the source file.

Numeric signal values are embedded as rationals (the source schedules plain
JavaScript numbers; no float-specific behavior is relied on by any claim).
-/

namespace Tone

/-- ADSR envelope shape parameters (attack, decay, release in seconds;
sustain a level in [0,1]), the fields of `EnvelopeOptions` used by `AMSynth`. -/
structure EnvelopeParams where
  attack : ℚ
  decay : ℚ
  sustain : ℚ
  release : ℚ
deriving DecidableEq, Repr

/-- The fully-merged construction options of `AMSynth`
(`AMSynthOptions`, src lines 17–21, plus `detune` inherited from the
`Monophonic` base defaults). Oscillator configs are embedded by their
waveform type string, the only field `getDefaults` overrides. -/
structure AMSynthOptions where
  harmonicity : ℚ
  oscillatorType : String
  envelope : EnvelopeParams
  modulationType : String
  modulationEnvelope : EnvelopeParams
  detune : ℚ
deriving DecidableEq, Repr

/-- A user-supplied `RecursivePartial<AMSynthOptions>`: each field may be
absent, in which case the default is used. -/
structure AMSynthUserOptions where
  harmonicity : Option ℚ
  oscillatorType : Option String
  envelope : Option EnvelopeParams
  modulationType : Option String
  modulationEnvelope : Option EnvelopeParams
  detune : Option ℚ
deriving DecidableEq, Repr

/-- The empty user options object (`new AMSynth()` with no arguments). -/
def emptyUserOptions : AMSynthUserOptions :=
  ⟨none, none, none, none, none, none⟩

/-- `optionsFromArguments(AMSynth.getDefaults(), arguments)` (src line 104):
merge the given options over the defaults, field by field. -/
def optionsFromArguments (defaults : AMSynthOptions) (given : AMSynthUserOptions) :
    AMSynthOptions where
  harmonicity := given.harmonicity.getD defaults.harmonicity
  oscillatorType := given.oscillatorType.getD defaults.oscillatorType
  envelope := given.envelope.getD defaults.envelope
  modulationType := given.modulationType.getD defaults.modulationType
  modulationEnvelope := given.modulationEnvelope.getD defaults.modulationEnvelope
  detune := given.detune.getD defaults.detune

/-- `AMSynth.getDefaults()` (src lines 155–203). Every field listed here is
set by the final `Object.assign` override in the source, so its value does not
depend on the base-class defaults being merged under it. `detune` comes from
the `Monophonic` base defaults (0 cents). -/
def getDefaults : AMSynthOptions where
  harmonicity := 3
  oscillatorType := "sine"
  envelope := { attack := 0.01, decay := 0.01, sustain := 1, release := 0.5 }
  modulationType := "square"
  modulationEnvelope := { attack := 0.5, decay := 0.0, sustain := 1, release := 0.5 }
  detune := 0

/-- Modelled from the spec: the lifecycle of one owned node/control. The base
class teardown is idempotent-safe: disposing an already-disposed node is a
no-op, so `releaseCount` counts how many times the underlying resource was
actually released. -/
structure NodeLife where
  disposed : Bool
  releaseCount : ℕ
deriving DecidableEq, Repr

/-- A freshly constructed, not yet disposed node. -/
def NodeLife.fresh : NodeLife := ⟨false, 0⟩

/-- Modelled from the spec: base-class `dispose()` of one node — release the
underlying resource on the first call only. -/
def NodeLife.dispose (n : NodeLife) : NodeLife :=
  if n.disposed then n else ⟨true, n.releaseCount + 1⟩

/-- The observable trigger history of an amplitude envelope: each attack
`(time, velocity)` pair and each release time it has received, most recent
first. -/
structure EnvelopeState where
  attackLog : List (ℚ × ℚ)
  releaseLog : List ℚ
deriving DecidableEq, Repr

/-- Modelled from the spec: the slice of a `Synth` sub-voice that `AMSynth`
drives — its oscillator and envelope objects (referenced by heap id, for the
aliasing of src lines 120–123), its envelope's trigger history, the fixed
output attenuation passed at construction, and its node lifecycle. -/
structure Synth where
  oscillatorId : ℕ
  envelopeId : ℕ
  envState : EnvelopeState
  volume : ℚ
  life : NodeLife
deriving DecidableEq, Repr

/-- Modelled from the spec: `Synth._triggerEnvelopeAttack(time, velocity)`
forwards to the sub-voice's internal envelope, which records the attack. -/
def Synth.envAttack (syn : Synth) (t v : ℚ) : Synth :=
  { syn with envState := { syn.envState with attackLog := (t, v) :: syn.envState.attackLog } }

/-- Modelled from the spec: `Synth._triggerEnvelopeRelease(time)` forwards to
the sub-voice's internal envelope, which records the release. -/
def Synth.envRelease (syn : Synth) (t : ℚ) : Synth :=
  { syn with envState := { syn.envState with releaseLog := t :: syn.envState.releaseLog } }

/-- `Synth.dispose` as `AMSynth.dispose` relies on it: tear down the
sub-voice's resources (idempotent base teardown). -/
def Synth.disposeVoice (syn : Synth) : Synth :=
  { syn with life := syn.life.dispose }

/-- The connectable nodes and ports of the signal graph that the `AMSynth`
constructor wires (src lines 146–151). -/
inductive Node
  | frequencySignal
  | detuneSignal
  | harmonicityMultiply
  | carrierFrequency
  | carrierDetune
  | carrierOut
  | modulatorFrequency
  | modulatorDetune
  | modulatorOut
  | modulationScale
  | modulationNodeGainParam
  | modulationNodeMain
  | outputNode
deriving DecidableEq, Repr

/-- `a.connect(b)`: a single directed edge. -/
def connect (a b : Node) : List (Node × Node) := [(a, b)]

/-- `a.chain(b, c)`: connect `a → b → c`. -/
def chain2 (a b c : Node) : List (Node × Node) := connect a b ++ connect b c

/-- `a.fan(b, c)`: connect `a → b` and `a → c`. -/
def fan2 (a b c : Node) : List (Node × Node) := connect a b ++ connect a c

/-- The fixed wiring performed once by the constructor (src lines 146–151):
frequency to the carrier's pitch input; frequency through the harmonicity
multiplier to the modulator's pitch input; detune fanned to both detune
inputs; the modulator's output through the scaling stage into the modulation
gain node's gain parameter; the carrier through the modulation gain node to
the output. -/
def connections : List (Node × Node) :=
  connect .frequencySignal .carrierFrequency ++
  chain2 .frequencySignal .harmonicityMultiply .modulatorFrequency ++
  fan2 .detuneSignal .carrierDetune .modulatorDetune ++
  chain2 .modulatorOut .modulationScale .modulationNodeGainParam ++
  chain2 .carrierOut .modulationNodeMain .outputNode

/-- The source feeding a destination port, read off the connection list
(each destination in this graph has at most one source). -/
def sourceOf (n : Node) : Option Node :=
  ((connections.filter (fun e => e.2 == n)).map Prod.fst).head?

/-- Error classes of the spec's taxonomy (§7): `UseAfterDispose` for calls on
a disposed instance, `InvalidConfiguration` for malformed construction
options, and the range rejection raised when an out-of-range value is
assigned to a clamped control. -/
inductive ToneError
  | useAfterDispose
  | invalidConfiguration
  | rangeError
deriving DecidableEq, Repr

/-- The state of one `AMSynth` voice: the two sub-voices, the exposed alias
fields (heap ids of the sub-voices' oscillator/envelope objects, src lines
120–123), the current values of the three published controls and the
modulation gain node's gain, the lifecycle of each owned control/node, and
the voice's own disposed flag. -/
structure AMSynth where
  carrier : Synth
  modulator : Synth
  oscillator : ℕ
  envelope : ℕ
  modulation : ℕ
  modulationEnvelope : ℕ
  frequencyValue : ℚ
  detuneValue : ℚ
  harmonicityValue : ℚ
  modulationNodeGain : ℚ
  frequencyLife : NodeLife
  detuneLife : NodeLife
  harmonicityLife : NodeLife
  modulationScaleLife : NodeLife
  modulationNodeLife : NodeLife
  disposed : Bool
deriving DecidableEq, Repr

/-- The `AMSynth` constructor (src lines 103–153): merge options over the
defaults, create the carrier and modulator sub-voices (volume −10 each, heap
ids allocated in construction order), publish the sub-voices' oscillator and
envelope objects under `oscillator`/`envelope`/`modulation`/
`modulationEnvelope` (src lines 120–123), create the frequency signal (no
initial value → 0), the detune signal at `options.detune`, the harmonicity
multiplier at `options.harmonicity`, and the modulation gain node with
`gain: 0` (src lines 138–141). The wiring itself is the static list
`connections`. -/
def mkAMSynth (given : AMSynthUserOptions) : AMSynth :=
  let options := optionsFromArguments getDefaults given
  let carrier : Synth :=
    { oscillatorId := 0, envelopeId := 1, envState := ⟨[], []⟩, volume := -10,
      life := .fresh }
  let modulator : Synth :=
    { oscillatorId := 2, envelopeId := 3, envState := ⟨[], []⟩, volume := -10,
      life := .fresh }
  { carrier := carrier
    modulator := modulator
    oscillator := carrier.oscillatorId
    envelope := carrier.envelopeId
    modulation := modulator.oscillatorId
    modulationEnvelope := modulator.envelopeId
    frequencyValue := 0
    detuneValue := options.detune
    harmonicityValue := options.harmonicity
    modulationNodeGain := 0
    frequencyLife := .fresh
    detuneLife := .fresh
    harmonicityLife := .fresh
    modulationScaleLife := .fresh
    modulationNodeLife := .fresh
    disposed := false }

/-- Modelled from the spec: what each node does to the control value arriving
on its input — a `Signal` ignores it and emits its own scheduled value, the
harmonicity `Multiply` scales it by its factor, and every other node in the
pitch path passes it through unchanged. -/
def nodeEval (s : AMSynth) : Node → ℚ → ℚ
  | .frequencySignal, _ => s.frequencyValue
  | .detuneSignal, _ => s.detuneValue
  | .harmonicityMultiply, x => x * s.harmonicityValue
  | _, x => x

/-- Modelled from the spec: steady-state control value observed at a node,
propagated along the wired `connections` (fuel bounds the propagation depth;
the graph is acyclic of depth ≤ 2, so any fuel ≥ 2 gives the fixpoint). -/
def valueAt (s : AMSynth) : ℕ → Node → ℚ
  | 0, n => nodeEval s n 0
  | fuel + 1, n =>
    nodeEval s n (match sourceOf n with
      | none => 0
      | some m => valueAt s fuel m)

/-- The signal reaching the carrier sub-voice's pitch input. -/
def carrierPitchInput (s : AMSynth) : ℚ := valueAt s 3 .carrierFrequency

/-- The signal reaching the modulator sub-voice's pitch input. -/
def modulatorPitchInput (s : AMSynth) : ℚ := valueAt s 3 .modulatorFrequency

/-- The signal reaching the carrier sub-voice's detune input. -/
def carrierDetuneInput (s : AMSynth) : ℚ := valueAt s 3 .carrierDetune

/-- The signal reaching the modulator sub-voice's detune input. -/
def modulatorDetuneInput (s : AMSynth) : ℚ := valueAt s 3 .modulatorDetune

/-- Schedule a new value on the published frequency signal. -/
def setFrequency (s : AMSynth) (f : ℚ) : AMSynth := { s with frequencyValue := f }

/-- Schedule a new value on the published detune signal. -/
def setDetune (s : AMSynth) (d : ℚ) : AMSynth := { s with detuneValue := d }

/-- Modelled from the spec: assignment to the `harmonicity` control at the
control layer — harmonicity is clamped to the non-negative range, and an
out-of-range (negative) value is rejected at the moment of assignment rather
than accepted and produced as a processing failure later. -/
def setHarmonicity (s : AMSynth) (v : ℚ) : Except ToneError AMSynth :=
  if v < 0 then .error .rangeError
  else .ok { s with harmonicityValue := v }

/-- `AMSynth._triggerEnvelopeAttack(time, velocity)` (src lines 208–213):
forward the same time and velocity to the carrier's and then the modulator's
envelope. -/
def triggerEnvelopeAttack (s : AMSynth) (t v : ℚ) : AMSynth :=
  { s with carrier := s.carrier.envAttack t v, modulator := s.modulator.envAttack t v }

/-- `AMSynth._triggerEnvelopeRelease(time)` (src lines 218–224): forward the
same time to the carrier's and then the modulator's envelope. -/
def triggerEnvelopeRelease (s : AMSynth) (t : ℚ) : AMSynth :=
  { s with carrier := s.carrier.envRelease t, modulator := s.modulator.envRelease t }

/-- Modelled from the spec: the public `triggerAttack` — a disposed voice
must not accept further trigger calls and fails with `UseAfterDispose`;
otherwise the trigger is forwarded to `_triggerEnvelopeAttack`. -/
def triggerAttack (s : AMSynth) (t v : ℚ) : Except ToneError AMSynth :=
  if s.disposed then .error .useAfterDispose
  else .ok (triggerEnvelopeAttack s t v)

/-- Modelled from the spec: the public `triggerRelease` — fails with
`UseAfterDispose` on a disposed voice, otherwise forwards to
`_triggerEnvelopeRelease`. -/
def triggerRelease (s : AMSynth) (t : ℚ) : Except ToneError AMSynth :=
  if s.disposed then .error .useAfterDispose
  else .ok (triggerEnvelopeRelease s t)

/-- Modelled from the spec: a connection call on the voice (`connect` to some
destination) — fails with `UseAfterDispose` on a disposed voice, otherwise
succeeds without changing the voice's own state. -/
def connectCall (s : AMSynth) (_destination : ℕ) : Except ToneError AMSynth :=
  if s.disposed then .error .useAfterDispose
  else .ok s

/-- `AMSynth.dispose()` (src lines 226–236): `super.dispose()` marks the
voice disposed, then the carrier, modulator, frequency, detune, harmonicity,
modulation-scale and modulation-gain nodes are each disposed. The call itself
is total (it never throws). -/
def dispose (s : AMSynth) : AMSynth :=
  { s with
    disposed := true
    carrier := s.carrier.disposeVoice
    modulator := s.modulator.disposeVoice
    frequencyLife := s.frequencyLife.dispose
    detuneLife := s.detuneLife.dispose
    harmonicityLife := s.harmonicityLife.dispose
    modulationScaleLife := s.modulationScaleLife.dispose
    modulationNodeLife := s.modulationNodeLife.dispose }

/-- Modelled from the spec: `AudioToGain`, the Scaling Stage — a stateless,
parameterless affine map taking the bipolar range [-1, 1] to the unipolar
range [0, 1]: `y = (x + 1) / 2`. -/
def audioToGain (x : ℚ) : ℚ := (x + 1) / 2

/-- Modelled from the spec: the output of the modulation `Gain` node for a
given carrier sample — the input scaled by the node's current gain. -/
def modulationNodeOutput (s : AMSynth) (carrierSample : ℚ) : ℚ :=
  carrierSample * s.modulationNodeGain

/-- Modelled from the spec: detune is measured in cents, and `d` cents shift
the effective pitch by `d / 1200` octaves. -/
def detuneOctaves (d : ℚ) : ℚ := d / 1200

/-- Modelled from the spec: a shift of `n` whole octaves multiplies the base
frequency by `2 ^ n`. -/
def applyOctaves (f : ℚ) (n : ℤ) : ℚ := f * (2 : ℚ) ^ n

/-- A note-trigger event as issued by the external caller. -/
inductive TriggerEvent
  | attack (t v : ℚ)
  | release (t : ℚ)
deriving DecidableEq, Repr

/-- Apply one trigger event to the voice's envelope state machine. -/
def applyEvent (s : AMSynth) : TriggerEvent → AMSynth
  | .attack t v => triggerEnvelopeAttack s t v
  | .release t => triggerEnvelopeRelease s t

/-- Apply a sequence of trigger events in order. -/
def applyEvents (s : AMSynth) : List TriggerEvent → AMSynth
  | [] => s
  | e :: es => applyEvents (applyEvent s e) es

/-- The two envelopes are synchronized: identical trigger histories. -/
def envSync (s : AMSynth) : Prop := s.carrier.envState = s.modulator.envState

/-- Update the object stored at heap id `i` (reading or writing through an
alias field is reading or writing the heap at the id the field holds). -/
def heapUpdate {α : Type} (heap : ℕ → α) (i : ℕ) (f : α → α) : ℕ → α :=
  fun j => if j = i then f (heap j) else heap j

/-! ## Helper lemmas -/

/-- One trigger event preserves envelope synchrony. -/
theorem envSync_applyEvent (s : AMSynth) (e : TriggerEvent) (h : envSync s) :
    envSync (applyEvent s e) := by
  cases e with
  | attack t v =>
    simp only [applyEvent, envSync, triggerEnvelopeAttack, Synth.envAttack] at h ⊢
    rw [h]
  | release t =>
    simp only [applyEvent, envSync, triggerEnvelopeRelease, Synth.envRelease] at h ⊢
    rw [h]

/-- Any sequence of trigger events preserves envelope synchrony. -/
theorem envSync_applyEvents (s : AMSynth) (evs : List TriggerEvent) (h : envSync s) :
    envSync (applyEvents s evs) := by
  induction evs generalizing s with
  | nil => exact h
  | cons e es ih => exact ih (applyEvent s e) (envSync_applyEvent s e h)

/-! ## Claim theorems -/

/-- C1: for every frequency value `f` set on the voice, the signal reaching
the modulator's pitch input equals `f × harmonicity` and the carrier's pitch
input equals `f`, at all times — the routing goes through the harmonicity
multiplier (edges `frequency → harmonicity → modulator.frequency` are in the
wired connections), is unaffected by attack/release triggers (not resampled
per note), and in the default-options scenario with `triggerAttack(0, 1)`
followed by `frequency = 440`, the carrier's pitch input is 440 Hz and the
modulator's is 1320 Hz (440 × default harmonicity 3). -/
theorem claim_C1_pitch_routing (s : AMSynth) (f t v u : ℚ) :
    carrierPitchInput (setFrequency s f) = f ∧
    modulatorPitchInput (setFrequency s f) = f * s.harmonicityValue ∧
    modulatorPitchInput (triggerEnvelopeAttack (setFrequency s f) t v) =
      f * s.harmonicityValue ∧
    modulatorPitchInput (triggerEnvelopeRelease (setFrequency s f) u) =
      f * s.harmonicityValue ∧
    (Node.frequencySignal, Node.harmonicityMultiply) ∈ connections ∧
    (Node.harmonicityMultiply, Node.modulatorFrequency) ∈ connections ∧
    (Node.frequencySignal, Node.carrierFrequency) ∈ connections ∧
    carrierPitchInput
      (setFrequency (triggerEnvelopeAttack (mkAMSynth emptyUserOptions) 0 1) 440) = 440 ∧
    modulatorPitchInput
      (setFrequency (triggerEnvelopeAttack (mkAMSynth emptyUserOptions) 0 1) 440) = 1320 := by
  refine ⟨rfl, rfl, rfl, rfl, by decide, by decide, by decide, rfl, ?_⟩
  show (440 : ℚ) * (mkAMSynth emptyUserOptions).harmonicityValue = 1320
  norm_num [mkAMSynth, optionsFromArguments, getDefaults, emptyUserOptions]

/-- C2: the Scaling Stage is interposed between the modulator's output and
the modulation gain node's gain input, and for every bipolar sample
`x ∈ [-1, 1]` it computes exactly `(x + 1) / 2`, a value in `[0, 1]`. -/
theorem claim_C2_scaling_stage (x : ℚ) (h1 : -1 ≤ x) (h2 : x ≤ 1) :
    audioToGain x = (x + 1) / 2 ∧
    0 ≤ audioToGain x ∧
    audioToGain x ≤ 1 ∧
    (Node.modulatorOut, Node.modulationScale) ∈ connections ∧
    (Node.modulationScale, Node.modulationNodeGainParam) ∈ connections := by
  refine ⟨rfl, ?_, ?_, by decide, by decide⟩ <;> unfold audioToGain <;> linarith

/-- Witness for C2 at the concrete sample `x = 0`. -/
theorem claim_C2_witness :
    audioToGain 0 = (0 + 1) / 2 ∧
    0 ≤ audioToGain 0 ∧
    audioToGain 0 ≤ 1 ∧
    (Node.modulatorOut, Node.modulationScale) ∈ connections ∧
    (Node.modulationScale, Node.modulationNodeGainParam) ∈ connections :=
  claim_C2_scaling_stage 0 (by norm_num) (by norm_num)

/-- C3: an attack trigger at time `t` with velocity `v` is forwarded
identically and synchronously to both sub-voices' envelopes (each records the
same `(t, v)`), a release at time `u` likewise records the same `u` in both,
and under any sequence of attack/release triggers — including mid-note
retriggers — the two envelopes' trigger histories stay identical. -/
theorem claim_C3_trigger_synchrony (s : AMSynth) (t v u : ℚ)
    (g : AMSynthUserOptions) (evs : List TriggerEvent) :
    (triggerEnvelopeAttack s t v).carrier.envState.attackLog =
      (t, v) :: s.carrier.envState.attackLog ∧
    (triggerEnvelopeAttack s t v).modulator.envState.attackLog =
      (t, v) :: s.modulator.envState.attackLog ∧
    (triggerEnvelopeRelease s u).carrier.envState.releaseLog =
      u :: s.carrier.envState.releaseLog ∧
    (triggerEnvelopeRelease s u).modulator.envState.releaseLog =
      u :: s.modulator.envState.releaseLog ∧
    envSync (applyEvents (mkAMSynth g) evs) :=
  ⟨rfl, rfl, rfl, rfl, envSync_applyEvents _ evs rfl⟩

/-- C4: once `dispose()` has been called on a voice, the voice is marked
disposed, and any subsequent trigger or connection call fails with the
`UseAfterDispose` error rather than being silently accepted. -/
theorem claim_C4_use_after_dispose (s : AMSynth) (t v : ℚ) (d : ℕ) :
    (dispose s).disposed = true ∧
    triggerAttack (dispose s) t v = .error .useAfterDispose ∧
    triggerRelease (dispose s) t = .error .useAfterDispose ∧
    connectCall (dispose s) d = .error .useAfterDispose :=
  ⟨rfl, rfl, rfl, rfl⟩

/-- C5: assignment to the harmonicity control clamps to the non-negative
range — a negative value is rejected at the moment of assignment with a
range error, while a non-negative value is accepted and becomes the control's
value. -/
theorem claim_C5_harmonicity_clamp (s : AMSynth) (v : ℚ) :
    (v < 0 → setHarmonicity s v = .error .rangeError) ∧
    (0 ≤ v → setHarmonicity s v = .ok { s with harmonicityValue := v }) := by
  constructor
  · intro h
    simp [setHarmonicity, h]
  · intro h
    simp [setHarmonicity, not_lt.mpr h]

/-- Witness for C5: assigning `-1` is rejected, assigning `2` is accepted. -/
theorem claim_C5_witness :
    setHarmonicity (mkAMSynth emptyUserOptions) (-1) = .error .rangeError ∧
    setHarmonicity (mkAMSynth emptyUserOptions) 2 =
      .ok { mkAMSynth emptyUserOptions with harmonicityValue := 2 } :=
  ⟨(claim_C5_harmonicity_clamp (mkAMSynth emptyUserOptions) (-1)).1 (by norm_num),
   (claim_C5_harmonicity_clamp (mkAMSynth emptyUserOptions) 2).2 (by norm_num)⟩

/-- C6: merging no options over the defaults yields exactly the defaults, and
the defaults are: harmonicity 3, carrier oscillator type sine, carrier
envelope attack 0.01 s / decay 0.01 s / sustain 1.0 / release 0.5 s,
modulator oscillator type square, modulator envelope attack 0.5 s /
decay 0.0 s / sustain 1.0 / release 0.5 s; any field supplied in the user
options overrides the default (shown for harmonicity), while an absent field
falls back to it. -/
theorem claim_C6_defaults :
    optionsFromArguments getDefaults emptyUserOptions = getDefaults ∧
    getDefaults.harmonicity = 3 ∧
    getDefaults.oscillatorType = "sine" ∧
    getDefaults.envelope.attack = 1 / 100 ∧
    getDefaults.envelope.decay = 1 / 100 ∧
    getDefaults.envelope.sustain = 1 ∧
    getDefaults.envelope.release = 1 / 2 ∧
    getDefaults.modulationType = "square" ∧
    getDefaults.modulationEnvelope.attack = 1 / 2 ∧
    getDefaults.modulationEnvelope.decay = 0 ∧
    getDefaults.modulationEnvelope.sustain = 1 ∧
    getDefaults.modulationEnvelope.release = 1 / 2 ∧
    (mkAMSynth emptyUserOptions).harmonicityValue = 3 ∧
    (∀ (g : AMSynthUserOptions) (q : ℚ),
      (optionsFromArguments getDefaults { g with harmonicity := some q }).harmonicity = q) ∧
    (∀ g : AMSynthUserOptions,
      (optionsFromArguments getDefaults { g with harmonicity := none }).harmonicity = 3) := by
  refine ⟨by simp [optionsFromArguments, emptyUserOptions], ?_, rfl, ?_, ?_, rfl, ?_, rfl,
    ?_, ?_, rfl, ?_, ?_, fun g q => rfl, fun g => rfl⟩ <;>
    norm_num [getDefaults, mkAMSynth, optionsFromArguments, emptyUserOptions]

/-- C7: the detune control is fanned identically and unscaled to both
sub-voices' detune inputs — for every detune value `d` both receive exactly
`d`, along the wired edges `detune → carrier.detune` and
`detune → modulator.detune` — and 1200 cents is exactly one octave: a shift
of one octave multiplies the base frequency by 2. -/
theorem claim_C7_detune_fanout (s : AMSynth) (d : ℚ) :
    carrierDetuneInput (setDetune s d) = d ∧
    modulatorDetuneInput (setDetune s d) = d ∧
    (Node.detuneSignal, Node.carrierDetune) ∈ connections ∧
    (Node.detuneSignal, Node.modulatorDetune) ∈ connections ∧
    detuneOctaves 1200 = 1 ∧
    (∀ f : ℚ, applyOctaves f 1 = 2 * f) := by
  refine ⟨rfl, rfl, by decide, by decide, by norm_num [detuneOctaves], fun f => ?_⟩
  simp [applyOctaves, mul_comm]

/-- C8: a second `dispose()` on the same voice is a no-op — it does not throw
(`dispose` is total) and does not double-release: after two calls every
distinct owned resource (carrier, modulator, frequency, detune, harmonicity,
scaling stage, modulation gain node) has been released exactly once. -/
theorem claim_C8_dispose_idempotent (g : AMSynthUserOptions) :
    dispose (dispose (mkAMSynth g)) = dispose (mkAMSynth g) ∧
    (dispose (dispose (mkAMSynth g))).carrier.life.releaseCount = 1 ∧
    (dispose (dispose (mkAMSynth g))).modulator.life.releaseCount = 1 ∧
    (dispose (dispose (mkAMSynth g))).frequencyLife.releaseCount = 1 ∧
    (dispose (dispose (mkAMSynth g))).detuneLife.releaseCount = 1 ∧
    (dispose (dispose (mkAMSynth g))).harmonicityLife.releaseCount = 1 ∧
    (dispose (dispose (mkAMSynth g))).modulationScaleLife.releaseCount = 1 ∧
    (dispose (dispose (mkAMSynth g))).modulationNodeLife.releaseCount = 1 :=
  ⟨rfl, rfl, rfl, rfl, rfl, rfl, rfl, rfl⟩

/-- C9: at construction the modulation gain node's gain is 0, so the carrier
signal routed through it (edges `carrier → modulationNode → output`) is fully
attenuated: the node's output is 0 for every carrier sample until the
modulator's scaled output drives the gain. -/
theorem claim_C9_initial_silence (g : AMSynthUserOptions) (x : ℚ) :
    (mkAMSynth g).modulationNodeGain = 0 ∧
    modulationNodeOutput (mkAMSynth g) x = 0 ∧
    (Node.carrierOut, Node.modulationNodeMain) ∈ connections ∧
    (Node.modulationNodeMain, Node.outputNode) ∈ connections :=
  ⟨rfl, by simp [modulationNodeOutput, mkAMSynth], by decide, by decide⟩

/-- C10: the exposed `oscillator`, `envelope`, `modulation` and
`modulationEnvelope` fields hold exactly the carrier's oscillator/envelope
and the modulator's oscillator/envelope (the same heap references, not
copies), so reading through an exposed field reads the sub-voice's object and
mutating through it mutates the sub-voice's object directly. -/
theorem claim_C10_alias_fields (g : AMSynthUserOptions) :
    (mkAMSynth g).oscillator = (mkAMSynth g).carrier.oscillatorId ∧
    (mkAMSynth g).envelope = (mkAMSynth g).carrier.envelopeId ∧
    (mkAMSynth g).modulation = (mkAMSynth g).modulator.oscillatorId ∧
    (mkAMSynth g).modulationEnvelope = (mkAMSynth g).modulator.envelopeId ∧
    (∀ heap : ℕ → EnvelopeParams,
      heap ((mkAMSynth g).envelope) = heap ((mkAMSynth g).carrier.envelopeId)) ∧
    (∀ (heap : ℕ → EnvelopeParams) (f : EnvelopeParams → EnvelopeParams),
      heapUpdate heap ((mkAMSynth g).envelope) f ((mkAMSynth g).carrier.envelopeId) =
        f (heap ((mkAMSynth g).carrier.envelopeId))) ∧
    (∀ (heap : ℕ → EnvelopeParams) (f : EnvelopeParams → EnvelopeParams),
      heapUpdate heap ((mkAMSynth g).modulationEnvelope) f
        ((mkAMSynth g).modulator.envelopeId) =
        f (heap ((mkAMSynth g).modulator.envelopeId))) :=
  ⟨rfl, rfl, rfl, rfl, fun _ => rfl, fun _ _ => rfl, fun _ _ => rfl⟩

end Tone
